import Mathlib

/-!
Shallow embedding of the OAuth 2.1 + PKCE core of the Descope Store MCP
server (Express variant): the in-memory `tokenStore` / `clientStore`
maps, the `/oauth/register`, `/oauth/authorize`, `/oauth/callback` and
`/oauth/token` handlers, the `authenticateBearer` middleware, and the
`compareProducts` tool.  Randomness (`generateRandomString`), the clock
(`Date.now()`) and the Descope SDK calls are passed in as explicit
parameters; everything else is translated directly from the source.
The SHA-256 and base64url primitives model Node's
`crypto.createHash('sha256')` and `digest('base64url')`; they are
validated below against standard test vectors.
-/

namespace DescopeStore

/-! ### JavaScript string / truthiness helpers -/

/-- Truthiness of an optional JS string: `undefined` and `""` are falsy. -/
def jsTruthy : Option String → Bool
  | none => false
  | some s => s != ""

/-- Interpolation of a possibly-`undefined` JS value into a template
literal: `undefined` prints as `"undefined"`. -/
def jsStr (o : Option String) : String := o.getD "undefined"

/-- JS `a || d` on strings: the default replaces the empty string too. -/
def jsOrStr (s d : String) : String := if s == "" then d else s

/-- JS `a || d` where `a` may be `undefined`. -/
def jsOrOpt (o : Option String) (d : String) : String :=
  match o with
  | none => d
  | some s => jsOrStr s d

/-- JS `String.prototype.startsWith`. -/
def jsStartsWith (s p : String) : Bool := p.data.isPrefixOf s.data

/-- JS `String.prototype.substring(n)` (drop the first `n` code units). -/
def jsSubstring (s : String) (n : Nat) : String := String.mk (s.data.drop n)

/-! ### The in-memory `Map` (JS `Map` semantics: `set` overwrites in
place, `delete` removes). -/

/-- A JS `Map` with string keys, as an association list. -/
def Store (α : Type) : Type := List (String × α)

instance (α : Type) [DecidableEq α] : DecidableEq (Store α) := by
  unfold Store; infer_instance

instance (α : Type) : Inhabited (Store α) := ⟨([] : List (String × α))⟩

/-- `Map.prototype.get`. -/
def storeGet {α : Type} (s : Store α) (k : String) : Option α :=
  match s with
  | [] => none
  | (k2, v) :: rest => if k2 = k then some v else storeGet rest k

/-- `Map.prototype.set`. -/
def storeSet {α : Type} (s : Store α) (k : String) (v : α) : Store α :=
  match s with
  | [] => [(k, v)]
  | (k2, v2) :: rest => if k2 = k then (k, v) :: rest else (k2, v2) :: storeSet rest k v

/-- `Map.prototype.delete`. -/
def storeDelete {α : Type} (s : Store α) (k : String) : Store α :=
  match s with
  | [] => []
  | (k2, v2) :: rest =>
    if k2 = k then storeDelete rest k else (k2, v2) :: storeDelete rest k

/-! ### SHA-256 (`crypto.createHash('sha256')`) over byte lists.

All words are `Nat` values kept below `2^32` by explicit `% 4294967296`
reductions; the primitive `Nat` operations are called directly so that
proofs by `decide` evaluate quickly. -/

/-- SHA-256 lowercase sigma-0, applied to a word already reduced mod
`2^32`; the caller reduces the result. -/
def sig0 (x : Nat) : Nat :=
  Nat.xor (Nat.xor (Nat.lor (Nat.shiftRight x 7) (Nat.shiftLeft x 25))
      (Nat.lor (Nat.shiftRight x 18) (Nat.shiftLeft x 14))) (Nat.shiftRight x 3)

/-- SHA-256 lowercase sigma-1. -/
def sig1 (x : Nat) : Nat :=
  Nat.xor (Nat.xor (Nat.lor (Nat.shiftRight x 17) (Nat.shiftLeft x 15))
      (Nat.lor (Nat.shiftRight x 19) (Nat.shiftLeft x 13))) (Nat.shiftRight x 10)

/-- SHA-256 uppercase Sigma-0. -/
def bsig0 (x : Nat) : Nat :=
  Nat.xor (Nat.xor (Nat.lor (Nat.shiftRight x 2) (Nat.shiftLeft x 30))
      (Nat.lor (Nat.shiftRight x 13) (Nat.shiftLeft x 19)))
    (Nat.lor (Nat.shiftRight x 22) (Nat.shiftLeft x 10))

/-- SHA-256 uppercase Sigma-1. -/
def bsig1 (x : Nat) : Nat :=
  Nat.xor (Nat.xor (Nat.lor (Nat.shiftRight x 6) (Nat.shiftLeft x 26))
      (Nat.lor (Nat.shiftRight x 11) (Nat.shiftLeft x 21)))
    (Nat.lor (Nat.shiftRight x 25) (Nat.shiftLeft x 7))

/-- SHA-256 choice function (`¬x` taken as xor with the 32-bit mask). -/
def chW (x y z : Nat) : Nat :=
  Nat.xor (Nat.land x y) (Nat.land (Nat.xor x 4294967295) z)

/-- SHA-256 majority function. -/
def majW (x y z : Nat) : Nat :=
  Nat.xor (Nat.xor (Nat.land x y) (Nat.land x z)) (Nat.land y z)

/-- Message-schedule extension: the fuel counts remaining words, the 16
trailing arguments are the sliding window `w[t-16] .. w[t-1]`, and `acc`
holds all words produced so far in reverse. -/
def sched : Nat → List Nat → Nat → Nat → Nat → Nat → Nat → Nat → Nat → Nat →
    Nat → Nat → Nat → Nat → Nat → Nat → Nat → Nat → List Nat
  | 0, acc, _, _, _, _, _, _, _, _, _, _, _, _, _, _, _, _ => acc.reverse
  | n + 1, acc, a0, a1, a2, a3, a4, a5, a6, a7, a8, a9, a10, a11, a12, a13, a14, a15 =>
    let nw := Nat.mod (Nat.add (Nat.add (Nat.add a0 (sig0 a1)) a9) (sig1 a14)) 4294967296
    sched n (nw :: acc) a1 a2 a3 a4 a5 a6 a7 a8 a9 a10 a11 a12 a13 a14 a15 nw
termination_by structural n => n

/-- The 64-word message schedule of one block (input: its 16 words). -/
def scheduleWords : List Nat → List Nat
  | [w0, w1, w2, w3, w4, w5, w6, w7, w8, w9, w10, w11, w12, w13, w14, w15] =>
    sched 48 [w15, w14, w13, w12, w11, w10, w9, w8, w7, w6, w5, w4, w3, w2, w1, w0]
      w0 w1 w2 w3 w4 w5 w6 w7 w8 w9 w10 w11 w12 w13 w14 w15
  | other => other

/-- SHA-256 compression rounds, consuming the round constants and the
message schedule in lock step; the eight trailing arguments are the
working registers `a .. h`. -/
def rounds : List Nat → List Nat → Nat → Nat → Nat → Nat → Nat → Nat → Nat → Nat → List Nat
  | k :: ks, w :: ws, a, b, c, d, e, f, g, h =>
    let t1 := Nat.mod (Nat.add (Nat.add (Nat.add (Nat.add h (bsig1 e)) (chW e f g)) k) w) 4294967296
    let t2 := Nat.mod (Nat.add (bsig0 a) (majW a b c)) 4294967296
    rounds ks ws (Nat.mod (Nat.add t1 t2) 4294967296) a b c
      (Nat.mod (Nat.add d t1) 4294967296) e f g
  | _, _, a, b, c, d, e, f, g, h => [a, b, c, d, e, f, g, h]

/-- SHA-256 round constants (decimal values of the usual table
0x428a2f98, 0x71374491, ...). -/
def sha256K : List Nat :=
  [1116352408, 1899447441, 3049323471, 3921009573, 961987163, 1508970993, 2453635748, 2870763221,
   3624381080, 310598401, 607225278, 1426881987, 1925078388, 2162078206, 2614888103, 3248222580,
   3835390401, 4022224774, 264347078, 604807628, 770255983, 1249150122, 1555081692, 1996064986,
   2554220882, 2821834349, 2952996808, 3210313671, 3336571891, 3584528711, 113926993, 338241895,
   666307205, 773529912, 1294757372, 1396182291, 1695183700, 1986661051, 2177026350, 2456956037,
   2730485921, 2820302411, 3259730800, 3345764771, 3516065817, 3600352804, 4094571909, 275423344,
   430227734, 506948616, 659060556, 883997877, 958139571, 1322822218, 1537002063, 1747873779,
   1955562222, 2024104815, 2227730452, 2361852424, 2428436474, 2756734187, 3204031479, 3329325298]

/-- SHA-256 initial hash value (decimal values of 0x6a09e667, ...). -/
def sha256H0 : List Nat :=
  [1779033703, 3144134277, 1013904242, 2773480762, 1359893119, 2600822924, 528734635, 1541459225]

/-- Big-endian packing of bytes into 32-bit words. -/
def bytesToWords : List Nat → List Nat
  | a :: b :: c :: d :: rest =>
    Nat.add (Nat.mul (Nat.add (Nat.mul (Nat.add (Nat.mul a 256) b) 256) c) 256) d ::
      bytesToWords rest
  | _ => []

/-- Compression of a single 64-byte block into the running hash value. -/
def compressBlock (hs block : List Nat) : List Nat :=
  match hs with
  | [h0, h1, h2, h3, h4, h5, h6, h7] =>
    match rounds sha256K (scheduleWords (bytesToWords block)) h0 h1 h2 h3 h4 h5 h6 h7 with
    | [a, b, c, d, e, f, g, h] =>
      [Nat.mod (Nat.add h0 a) 4294967296, Nat.mod (Nat.add h1 b) 4294967296,
       Nat.mod (Nat.add h2 c) 4294967296, Nat.mod (Nat.add h3 d) 4294967296,
       Nat.mod (Nat.add h4 e) 4294967296, Nat.mod (Nat.add h5 f) 4294967296,
       Nat.mod (Nat.add h6 g) 4294967296, Nat.mod (Nat.add h7 h) 4294967296]
    | other => other
  | other => other

/-- Big-endian 8-byte encoding of the message bit length. -/
def lenBytes8 (n : Nat) : List Nat :=
  [n / 72057594037927936 % 256, n / 281474976710656 % 256, n / 1099511627776 % 256,
   n / 4294967296 % 256, n / 16777216 % 256, n / 65536 % 256, n / 256 % 256, n % 256]

/-- SHA-256 message padding: append `0x80`, zeros up to 56 mod 64, then
the 64-bit big-endian bit length. -/
def padMessage (msg : List Nat) : List Nat :=
  msg ++ 0x80 :: List.replicate ((119 - msg.length % 64) % 64) 0 ++ lenBytes8 (msg.length * 8)

/-- Iterated block compression (first argument: blocks remaining). -/
def sha256iter : Nat → List Nat → List Nat → List Nat
  | 0, h, _ => h
  | n + 1, h, msg => sha256iter n (compressBlock h (msg.take 64)) (msg.drop 64)

/-- SHA-256 digest of a byte-list message, as eight 32-bit words. -/
def sha256Words (msg : List Nat) : List Nat :=
  let padded := padMessage msg
  sha256iter (padded.length / 64) sha256H0 padded

/-- Big-endian unpacking of a 32-bit word into four bytes. -/
def wordToBytes (w : Nat) : List Nat :=
  [w / 16777216 % 256, w / 65536 % 256, w / 256 % 256, w % 256]

/-- SHA-256 digest (32 bytes) of a byte-list message. -/
def sha256 (msg : List Nat) : List Nat := (sha256Words msg).flatMap wordToBytes

/-! ### base64url without padding (`digest('base64url')`) -/

/-- The 6-bit groups of a byte list, as emitted by unpadded base64:
groups of three bytes give four sextets, a trailing byte gives two and
two trailing bytes give three. -/
def b64Sextets : List Nat → List Nat
  | [] => []
  | [b0] => [b0 / 4, b0 % 4 * 16]
  | [b0, b1] => [b0 / 4, b0 % 4 * 16 + b1 / 16, b1 % 16 * 4]
  | b0 :: b1 :: b2 :: rest =>
    (b0 / 4) :: (b0 % 4 * 16 + b1 / 16) :: (b1 % 16 * 4 + b2 / 64) :: (b2 % 64) :: b64Sextets rest

/-- Character of the URL-safe base64 alphabet at index `n < 64`. -/
def b64Char (n : Nat) : Char :=
  if n < 26 then Char.ofNat (65 + n)
  else if n < 52 then Char.ofNat (97 + (n - 26))
  else if n < 62 then Char.ofNat (48 + (n - 52))
  else if n = 62 then '-' else '_'

/-- Code point of the URL-safe base64 character at index `n < 64`. -/
def b64Code (n : Nat) : Nat :=
  if n < 26 then 65 + n
  else if n < 52 then 97 + (n - 26)
  else if n < 62 then 48 + (n - 52)
  else if n = 62 then 45 else 95

/-- base64url encoding without `=` padding, as produced by Node's
`Buffer.toString('base64url')`. -/
def base64urlNoPad (bs : List Nat) : String := String.mk ((b64Sextets bs).map b64Char)

/-- UTF-8 encoding of one Unicode scalar value. -/
def utf8EncodeNat (n : Nat) : List Nat :=
  if n < 128 then [n]
  else if n < 2048 then [192 + n / 64, 128 + n % 64]
  else if n < 65536 then [224 + n / 4096, 128 + n / 64 % 64, 128 + n % 64]
  else [240 + n / 262144, 128 + n / 4096 % 64, 128 + n / 64 % 64, 128 + n % 64]

/-- UTF-8 bytes of a string (`crypto.Hash.update` hashes the UTF-8 bytes). -/
def strBytes (s : String) : List Nat := s.data.flatMap (fun c => utf8EncodeNat c.toNat)

/-- The PKCE S256 check as computed at the token endpoint:
`base64url(sha256(verifier bytes))` compared byte-for-byte with the
stored challenge. -/
def pkceVerifyBytes (verifierBytes : List Nat) (code_challenge : String) : Bool :=
  base64urlNoPad (sha256 verifierBytes) == code_challenge

/-- PKCE S256 verification of a code-verifier string. -/
def pkceVerifyS256 (code_verifier code_challenge : String) : Bool :=
  pkceVerifyBytes (strBytes code_verifier) code_challenge

/-! ### Data model: the objects stored in `tokenStore` / `clientStore` -/

/-- An entry of the `tokenStore` map.  Both authorization-code records
(keys `auth_<code>`) and access-token records live in the same map; a
field the JS object does not carry is `none` (JS `undefined`). -/
structure StoreEntry where
  client_id : String
  scope : String
  expires_at : Nat
  created_at : Nat
  redirect_uri : Option String := none
  code_challenge : Option String := none
  code_challenge_method : Option String := none
  token_type : Option String := none
  descope_token : Option String := none
  descope_user : Option String := none
  deriving Repr, DecidableEq

/-- The result of `new URL(uri)` on a redirect URI: `none` when the
constructor throws, otherwise the parsed protocol and hostname. -/
structure UrlParts where
  protocol : String
  hostname : String
  deriving Repr, DecidableEq

/-- A redirect URI string together with its parse result. -/
structure RUri where
  raw : String
  parsed : Option UrlParts
  deriving Repr, DecidableEq

/-- The filter predicate of `/oauth/register`: HTTPS, or HTTP on
localhost; unparseable URIs are dropped. -/
def validRedirectUri (u : RUri) : Bool :=
  match u.parsed with
  | none => false
  | some p => p.protocol == "https:" || (p.protocol == "http:" && p.hostname == "localhost")

/-- An entry of the `clientStore` map. -/
structure ClientEntry where
  client_id : String
  client_secret : String
  client_name : String
  redirect_uris : List RUri
  grant_types : List String
  response_types : List String
  scope : String
  created_at : Nat
  deriving Repr, DecidableEq

/-- The default `redirect_uris` entry,
`` `${MCP_SERVER_URL}/oauth/callback` `` with the default server URL. -/
def defaultCallbackUri : RUri :=
  { raw := "http://localhost:3001/oauth/callback"
    parsed := some { protocol := "http:", hostname := "localhost" } }

/-- Response of `POST /oauth/register`. -/
inductive RegisterResult
  | success (client : ClientEntry)
  | error (status : Nat) (err : String)
  deriving Repr, DecidableEq

/-- The `/oauth/register` handler.  `newId` and `newSecret` stand for
the two `generateRandomString` draws. -/
def oauthRegister (clients : Store ClientEntry) (now : Nat)
    (client_name : Option String) (redirect_uris : Option (List RUri))
    (grant_types : Option (List String)) (response_types : Option (List String))
    (scope : Option String) (newId newSecret : String) :
    RegisterResult × Store ClientEntry :=
  let uris := redirect_uris.getD [defaultCallbackUri]
  let gts := grant_types.getD ["authorization_code"]
  let rts := response_types.getD ["code"]
  let sc := scope.getD "mcp:tools mcp:resources store:read"
  let clientId := "mcp_" ++ newId
  let clientSecret := "mcp_sk_" ++ newSecret
  let validRedirectUris := uris.filter validRedirectUri
  if validRedirectUris.length = 0 then
    (.error 400 "invalid_redirect_uri", clients)
  else
    let clientData : ClientEntry :=
      { client_id := clientId, client_secret := clientSecret
        client_name := jsOrOpt client_name "MCP Client"
        redirect_uris := validRedirectUris
        grant_types := gts, response_types := rts, scope := sc, created_at := now }
    (.success clientData, storeSet clients clientId clientData)

/-- Response of `GET /oauth/authorize`. -/
inductive AuthorizeResult
  | redirect (descopeUrl : String)
  | error (status : Nat) (err : String)
  deriving Repr, DecidableEq

/-- The `/oauth/authorize` handler.  `newCode` stands for the
`generateRandomString(16)` draw and `descopeStart` for the outcome of
`descopeClient.oAuth.start` (`none` = the SDK call threw). -/
def oauthAuthorize (tokens : Store StoreEntry) (clients : Store ClientEntry) (now : Nat)
    (client_id redirect_uri code_challenge _state scope0 code_challenge_method : Option String)
    (newCode : String) (descopeStart : Option String) :
    AuthorizeResult × Store StoreEntry :=
  let scope := scope0.getD "mcp:tools"
  let ccm := code_challenge_method.getD "S256"
  if !(jsTruthy client_id && jsTruthy redirect_uri && jsTruthy code_challenge) then
    (.error 400 "invalid_request", tokens)
  else if ccm ≠ "S256" then
    (.error 400 "invalid_request", tokens)
  else
    match storeGet clients (client_id.getD "") with
    | none => (.error 400 "invalid_client", tokens)
    | some client =>
      if !(client.redirect_uris.any fun u => u.raw == redirect_uri.getD "") then
        (.error 400 "invalid_request", tokens)
      else
        let tokens2 := storeSet tokens ("auth_" ++ newCode)
          { client_id := client_id.getD "", redirect_uri := redirect_uri
            scope := scope, code_challenge := code_challenge
            code_challenge_method := some ccm
            expires_at := now + 10 * 60 * 1000, created_at := now }
        match descopeStart with
        | some url => (.redirect url, tokens2)
        | none => (.error 500 "server_error", tokens2)

/-- Success body of `POST /oauth/token`. -/
structure TokenSuccess where
  access_token : String
  token_type : String
  expires_in : Nat
  refresh_token : Option String
  scope : String
  deriving Repr, DecidableEq

/-- Response of `POST /oauth/token`. -/
inductive TokenResult
  | success (body : TokenSuccess)
  | error (status : Nat) (err : String)
  deriving Repr, DecidableEq

/-- The `/oauth/token` handler.  `newAccess` and `newRefresh` stand for
the `generateRandomString(32)` draws. -/
def oauthToken (tokens : Store StoreEntry) (clients : Store ClientEntry) (now : Nat)
    (grant_type code client_id client_secret code_verifier : Option String)
    (newAccess newRefresh : String) : TokenResult × Store StoreEntry :=
  if grant_type == some "authorization_code" then
    match storeGet tokens ("auth_" ++ jsStr code) with
    | none => (.error 400 "invalid_grant", tokens)
    | some authData =>
      if !jsTruthy code_verifier then
        (.error 400 "invalid_request", tokens)
      else
        let expectedChallenge := base64urlNoPad (sha256 (strBytes (code_verifier.getD "")))
        if some expectedChallenge ≠ authData.code_challenge then
          (.error 400 "invalid_grant", tokens)
        else
          let accessToken := "mcp_at_" ++ newAccess
          let refreshToken := "mcp_rt_" ++ newRefresh
          let tokens1 := storeSet tokens accessToken
            { client_id := authData.client_id, scope := authData.scope
              token_type := some "Bearer"
              expires_at := now + 3600 * 1000, created_at := now }
          let tokens2 := storeDelete tokens1 ("auth_" ++ jsStr code)
          (.success { access_token := accessToken, token_type := "Bearer", expires_in := 3600
                      refresh_token := some refreshToken, scope := authData.scope }, tokens2)
  else if grant_type == some "client_credentials" then
    let clientOpt := match client_id with
      | some cid => storeGet clients cid
      | none => none
    match clientOpt with
    | none => (.error 401 "invalid_client", tokens)
    | some client =>
      if some client.client_secret ≠ client_secret then
        (.error 401 "invalid_client", tokens)
      else
        let accessToken := "mcp_at_" ++ newAccess
        let tokens1 := storeSet tokens accessToken
          { client_id := jsStr client_id, scope := "mcp:tools mcp:resources store:read"
            token_type := some "Bearer"
            expires_at := now + 3600 * 1000, created_at := now }
        (.success { access_token := accessToken, token_type := "Bearer", expires_in := 3600
                    refresh_token := none, scope := "mcp:tools mcp:resources store:read" },
         tokens1)
  else
    (.error 400 "unsupported_grant_type", tokens)

/-- The identity assertion obtained in `/oauth/callback` from
`descopeClient.oAuth.exchangeToken` followed by `validateSession`:
the session token, its validity, and the custom claims planted by the
authorization endpoint. -/
structure DescopeSession where
  sessionToken : String
  valid : Bool
  mcp_auth_code : Option String
  claim_client_id : Option String
  mcp_scope : Option String
  deriving Repr, DecidableEq

/-- Response of `GET /oauth/callback`. -/
inductive CallbackResult
  | redirect (base : String) (code : String) (state : String)
  | error (status : Nat) (err : String)
  deriving Repr, DecidableEq

/-- The `/oauth/callback` handler.  `exchange` is the outcome of the
Descope token exchange and session validation (`none` = an SDK call
threw); `newTok` stands for the `generateRandomString(32)` draw. -/
def oauthCallback (tokens : Store StoreEntry) (now : Nat) (code : Option String)
    (exchange : Option DescopeSession) (newTok : String) :
    CallbackResult × Store StoreEntry :=
  if !jsTruthy code then
    (.error 400 "invalid_request", tokens)
  else
    match exchange with
    | none => (.error 500 "server_error", tokens)
    | some s =>
      if !s.valid then
        (.error 400 "invalid_grant", tokens)
      else if !jsTruthy s.mcp_auth_code then
        (.error 400 "invalid_grant", tokens)
      else
        let authCode := s.mcp_auth_code.getD ""
        match storeGet tokens ("auth_" ++ authCode) with
        | none => (.error 400 "invalid_grant", tokens)
        | some authData =>
          let mcpAccessToken := "mcp_at_" ++ newTok
          let tokens1 := storeSet tokens mcpAccessToken
            { client_id := authData.client_id, scope := authData.scope
              token_type := some "Bearer"
              descope_token := some s.sessionToken
              descope_user := some s.sessionToken
              expires_at := now + 3600 * 1000, created_at := now }
          let tokens2 := storeDelete tokens1 ("auth_" ++ authCode)
          match authData.redirect_uri with
          | some ru => (.redirect ru authCode "authorized", tokens2)
          | none => (.error 500 "server_error", tokens2)

/-! ### The bearer authentication gate (`authenticateBearer`) -/

/-- Outcome of `descopeClient.validateSession` inside the middleware. -/
inductive DescopeOutcome
  | valid
  | invalid
  | errored
  deriving Repr, DecidableEq

/-- Outcome of the middleware: pass-through on a public path, `next()`
with the token's client attached, or a 401 `invalid_token` response
with the given description. -/
inductive AuthGateResult
  | nextPublic
  | nextAuthed (clientId : String)
  | unauthorized (description : String)
  deriving Repr, DecidableEq

/-- The middleware's allow-list of public path prefixes. -/
def publicPaths : List String :=
  ["/health", "/mcp/info", "/.well-known/oauth-authorization-server",
   "/oauth/authorize", "/oauth/token", "/oauth/register"]

/-- The `authenticateBearer` middleware.  `descopeValidate` stands for
`descopeClient.validateSession`. -/
def authenticateBearer (tokens : Store StoreEntry)
    (descopeValidate : String → DescopeOutcome) (now : Nat)
    (method path : String) (authHeader : Option String) :
    AuthGateResult × Store StoreEntry :=
  if method == "OPTIONS" || publicPaths.any (fun p => jsStartsWith path p) then
    (.nextPublic, tokens)
  else
    match authHeader with
    | none => (.unauthorized "Bearer token required in Authorization header", tokens)
    | some h =>
      if !jsStartsWith h "Bearer " then
        (.unauthorized "Bearer token required in Authorization header", tokens)
      else
        let token := jsSubstring h 7
        match storeGet tokens token with
        | none => (.unauthorized "Token not found or invalid", tokens)
        | some tokenData =>
          if tokenData.expires_at < now then
            (.unauthorized "Token has expired", storeDelete tokens token)
          else if jsTruthy tokenData.descope_token then
            match descopeValidate (tokenData.descope_token.getD "") with
            | .valid => (.nextAuthed tokenData.client_id, tokens)
            | .invalid => (.unauthorized "Descope session validation failed", storeDelete tokens token)
            | .errored => (.unauthorized "Token validation failed", tokens)
          else
            (.nextAuthed tokenData.client_id, tokens)

/-! ### The `compare_products` tool -/

/-- A product variant as returned by the catalog API. -/
structure Variant where
  price : String
  deriving Repr, DecidableEq

/-- A product as returned by the catalog API (the fields the tool
reads). -/
structure Product where
  id : String
  title : String
  description : String
  image_url : String
  product_type : String
  variants : List Variant
  deriving Repr, DecidableEq

/-- One element of the `comparison` array built by `compareProducts`. -/
structure ComparisonEntry where
  id : String
  title : String
  price : String
  description : String
  image : String
  features : List String
  deriving Repr, DecidableEq

/-- Result object of `compareProducts`. -/
structure ComparisonResult where
  comparison : List ComparisonEntry
  recommendation : Option String
  deriving Repr, DecidableEq

/-- The per-product summary object inside `comparison`
(`variants[0]?.price || 'N/A'`, first three sentences as features). -/
def comparisonEntry (p : Product) : ComparisonEntry :=
  { id := p.id, title := p.title
    price := match p.variants.head? with
      | some v => jsOrStr v.price "N/A"
      | none => "N/A"
    description := p.description, image := p.image_url
    features := (p.description.splitOn ".").take 3 }

/-- The `compareProducts` tool over the catalog returned by
`GET /api/products`. -/
def compareProducts (catalog : List Product) (productIds : List String) : ComparisonResult :=
  let products := catalog.filter (fun p => productIds.contains p.id)
  { comparison := products.map comparisonEntry
    recommendation := match products with
      | [] => none
      | p :: _ => some p.title }

/-! ### Fixtures used by the claim theorems and witnesses -/

/-- A plain-HTTP non-localhost redirect URI, for the C7 witness. -/
def c7BadUri : RUri :=
  { raw := "http://evil.example", parsed := some { protocol := "http:", hostname := "evil.example" } }

/-- An HTTPS redirect URI, for the C7 witness. -/
def c7GoodUri : RUri :=
  { raw := "https://app.example/cb", parsed := some { protocol := "https:", hostname := "app.example" } }

/-- A small catalog for the C10 witness. -/
def c10Catalog : List Product :=
  [{ id := "p1", title := "Alpha", description := "A. B. C. D", image_url := "i1",
     product_type := "t", variants := [{ price := "10" }] },
   { id := "p2", title := "Beta", description := "x", image_url := "i2",
     product_type := "t", variants := [] }]

/-- Token-store entry for the C5 witness: minted at `T = 0` with TTL
3600 s. -/
def c5Token : StoreEntry :=
  { client_id := "client-1", scope := "mcp:tools", token_type := some "Bearer"
    expires_at := 3600000, created_at := 0 }

/-- Registered client for the C6 witness. -/
def c6Client : ClientEntry :=
  { client_id := "mcp_c6", client_secret := "mcp_sk_s6", client_name := "MCP Client"
    redirect_uris := [c7GoodUri], grant_types := ["authorization_code"]
    response_types := ["code"], scope := "mcp:tools", created_at := 0 }

/-- Stored authorization code whose challenge matches the verifier
`"v"`, for the C1/C9 witnesses. -/
def c1AuthEntry : StoreEntry :=
  { client_id := "client-1", scope := "mcp:tools"
    redirect_uri := some "http://localhost:4000/cb"
    code_challenge := some (base64urlNoPad (sha256 (strBytes "v")))
    code_challenge_method := some "S256"
    expires_at := 600000, created_at := 0 }

/-- Descope exchange outcome for the C3 witness. -/
def c3Session : DescopeSession :=
  { sessionToken := "sess1", valid := true, mcp_auth_code := some "code1"
    claim_client_id := some "client-1", mcp_scope := some "mcp:tools" }

/-- Authorization-code entry that is long past its `expires_at`
(minted at 0, expiring at 600000) for the C2 failing input. -/
def c2AuthEntry : StoreEntry :=
  { client_id := "client-1", scope := "mcp:tools"
    redirect_uri := some "http://localhost:4000/cb"
    code_challenge := some (base64urlNoPad (sha256 (strBytes "v")))
    code_challenge_method := some "S256"
    expires_at := 600000, created_at := 0 }

/-- Fast structural equality of byte lists. -/
def bytesEq : List Nat → List Nat → Bool
  | [], [] => true
  | a :: as, b :: bs => Nat.beq a b && bytesEq as bs
  | _, _ => false

/-- The UTF-8 bytes of the spec's example verifier `"abc123"`. -/
def abc123Bytes : List Nat := strBytes "abc123"

/-- The code challenge paired with the verifier `"abc123"`. -/
def abc123Challenge : String := base64urlNoPad (sha256 abc123Bytes)

/-- Exhaustive check at byte position `i`: replacing that byte of
`"abc123"` by any other byte value changes the base64url-encoded
SHA-256 digest (compared here as 6-bit groups). -/
def mutKillAt (i : Nat) : Bool :=
  (List.range 256).all fun b =>
    Nat.beq b (abc123Bytes.getD i 0)
      || !bytesEq (b64Sextets (sha256 (abc123Bytes.set i b))) (b64Sextets (sha256 abc123Bytes))

/-! ### Helper lemmas -/

theorem storeGet_delete_self {α : Type} (s : Store α) (k : String) :
    storeGet (storeDelete s k) k = none := by
  induction s with
  | nil => rfl
  | cons hd tl ih =>
    by_cases h : hd.1 = k
    · simpa [storeDelete, h]
    · simp [storeDelete, storeGet, h, ih]

theorem storeGet_set_self {α : Type} (s : Store α) (k : String) (v : α) :
    storeGet (storeSet s k v) k = some v := by
  induction s with
  | nil => simp [storeSet, storeGet]
  | cons hd tl ih =>
    by_cases h : hd.1 = k
    · simp [storeSet, storeGet, h]
    · simp [storeSet, storeGet, h, ih]

/-! Test vectors for the SHA-256 / base64url model. -/

example : base64urlNoPad (sha256 (strBytes "abc123")) = "bKE9UspwyIPg8LsQHkJaiehiTeUdstI5JZOvaoQRgJA" := by decide
example : base64urlNoPad (sha256 (strBytes "v")) = "TJRIXgwhrmxBzh3-e2v6zupato5AokdvUCCOUm9QYIA" := by decide
example : base64urlNoPad (sha256 (strBytes "abc")) = "ungWv48Bz-pBQUDeXa4iI7ADYaOWF3qctBD_YfIAFa0" := by decide
example : base64urlNoPad (sha256 (strBytes "")) = "47DEQpj8HBSa-_TImW-5JCeuQeRkm5NMpJWZG3hSuFU" := by decide


theorem isPrefixOf_append (l r : List Char) : l.isPrefixOf (l ++ r) = true := by
  induction l with
  | nil => simp [List.isPrefixOf]
  | cons h t ih => simp [List.isPrefixOf, ih]

theorem bearerData : "Bearer ".data = ['B', 'e', 'a', 'r', 'e', 'r', ' '] := by decide

theorem jsStartsWith_bearer (tk : String) : jsStartsWith ("Bearer " ++ tk) "Bearer " = true := by
  unfold jsStartsWith
  rw [String.data_append, bearerData]
  exact isPrefixOf_append _ _

theorem jsSubstring_bearer (tk : String) : jsSubstring ("Bearer " ++ tk) 7 = tk := by
  unfold jsSubstring
  rw [String.data_append, bearerData]
  have hdrop : List.drop 7 (['B', 'e', 'a', 'r', 'e', 'r', ' '] ++ tk.data) = tk.data := rfl
  rw [hdrop]

theorem mcp_at_ne_empty (r : String) : "mcp_at_" ++ r ≠ "" := by
  intro h
  have h2 := congrArg String.data h
  rw [String.data_append ..] at h2
  exact absurd ((List.append_eq_nil).mp h2).1 (by decide)

/-! ### C8: the authorization endpoint fails closed on any
`code_challenge_method` other than `S256` -/

/-- C8: whenever the `code_challenge_method` query parameter is present
and differs from `"S256"` (for example `"plain"`), `GET /oauth/authorize`
answers 400 `invalid_request` and leaves the token store untouched, so
no authorization code is minted. -/
theorem authorize_non_s256_fails_closed
    (tokens : Store StoreEntry) (clients : Store ClientEntry) (now : Nat)
    (client_id redirect_uri code_challenge st scope0 : Option String) (m : String)
    (hm : m ≠ "S256") (newCode : String) (descopeStart : Option String) :
    oauthAuthorize tokens clients now client_id redirect_uri code_challenge st scope0
      (some m) newCode descopeStart = (.error 400 "invalid_request", tokens) := by
  unfold oauthAuthorize
  by_cases h : (jsTruthy client_id && jsTruthy redirect_uri && jsTruthy code_challenge) = true
  · simp [h, hm]
  · simp [Bool.eq_false_iff.mpr h]

/-- Closed instance of `authorize_non_s256_fails_closed` at the method
`"plain"`. -/
theorem authorize_non_s256_fails_closed_witness :
    oauthAuthorize ([] : Store StoreEntry) ([] : Store ClientEntry) 0
      (some "test") (some "http://localhost:4000/cb") (some "challenge") none none
      (some "plain") "code1" none = (.error 400 "invalid_request", []) :=
  authorize_non_s256_fails_closed [] [] 0 (some "test") (some "http://localhost:4000/cb")
    (some "challenge") none none "plain" (by decide) "code1" none

/-! ### C7: dynamic client registration filters redirect URIs -/

/-- C7: `POST /oauth/register` keeps exactly the submitted redirect URIs
whose scheme is `https`, or `http` with host `localhost`.  If no URI
survives, it answers 400 `invalid_redirect_uri` and stores nothing; if
some survive, it registers the client whose `redirect_uris` are exactly
the surviving ones. -/
theorem register_filters_redirect_uris
    (clients : Store ClientEntry) (now : Nat) (client_name : Option String)
    (uris : List RUri) (gts rts : Option (List String)) (sc : Option String)
    (newId newSecret : String) :
    (uris.filter validRedirectUri = [] →
      oauthRegister clients now client_name (some uris) gts rts sc newId newSecret
        = (.error 400 "invalid_redirect_uri", clients)) ∧
    (∀ u us, uris.filter validRedirectUri = u :: us →
      ∃ cd : ClientEntry,
        oauthRegister clients now client_name (some uris) gts rts sc newId newSecret
          = (.success cd, storeSet clients ("mcp_" ++ newId) cd) ∧
        cd.redirect_uris = u :: us ∧
        storeGet (storeSet clients ("mcp_" ++ newId) cd) ("mcp_" ++ newId) = some cd) := by
  constructor
  · intro hf
    unfold oauthRegister
    simp [hf]
  · intro u us hf
    refine ⟨{ client_id := "mcp_" ++ newId, client_secret := "mcp_sk_" ++ newSecret
              client_name := jsOrOpt client_name "MCP Client", redirect_uris := u :: us
              grant_types := gts.getD ["authorization_code"]
              response_types := rts.getD ["code"]
              scope := sc.getD "mcp:tools mcp:resources store:read", created_at := now },
            ?_, rfl, storeGet_set_self ..⟩
    unfold oauthRegister
    simp [hf]

/-- Closed instance of `register_filters_redirect_uris`: a single
plain-HTTP non-localhost URI is rejected, a single HTTPS URI is kept. -/
theorem register_filters_redirect_uris_witness :
    (oauthRegister ([] : Store ClientEntry) 0 none (some [c7BadUri])
        none none none "id1" "sec1" = (.error 400 "invalid_redirect_uri", [])) ∧
    (∃ cd : ClientEntry,
       oauthRegister ([] : Store ClientEntry) 0 none (some [c7GoodUri])
          none none none "id1" "sec1" = (.success cd, storeSet [] ("mcp_" ++ "id1") cd) ∧
       cd.redirect_uris = [c7GoodUri] ∧
       storeGet (storeSet [] ("mcp_" ++ "id1") cd) ("mcp_" ++ "id1") = some cd) :=
  ⟨(register_filters_redirect_uris [] 0 none [c7BadUri] none none none "id1" "sec1").1 (by decide),
   (register_filters_redirect_uris [] 0 none [c7GoodUri] none none none "id1" "sec1").2
     c7GoodUri [] (by decide)⟩

/-! ### C10: `compareProducts` -/

theorem filter_map_id (catalog : List Product) (ids : List String) :
    ((catalog.filter fun p => ids.contains p.id).map fun p => p.id)
      = ((catalog.map fun p => p.id).filter fun i => ids.contains i) := by
  induction catalog with
  | nil => rfl
  | cons p rest ih =>
    by_cases h : p.id ∈ ids
    · simpa [List.filter_cons, h] using ih
    · simpa [List.filter_cons, h] using ih

/-- C10: `compareProducts` produces one comparison entry per catalog
product whose id occurs in the request, in catalog order (ids matching
no product are skipped); its recommendation is the title of the first
such product, and `none` exactly when nothing matches. -/
theorem compare_products_correct (catalog : List Product) (ids : List String) :
    (compareProducts catalog ids).comparison
        = (catalog.filter fun p => ids.contains p.id).map comparisonEntry ∧
    ((compareProducts catalog ids).comparison.map fun e => e.id)
        = ((catalog.map fun p => p.id).filter fun i => ids.contains i) ∧
    (∀ p rest, catalog.filter (fun p => ids.contains p.id) = p :: rest →
      (compareProducts catalog ids).recommendation = some p.title) ∧
    ((compareProducts catalog ids).recommendation = none ↔
      catalog.filter (fun p => ids.contains p.id) = []) := by
  have hrec : (compareProducts catalog ids).recommendation
      = match catalog.filter (fun p => ids.contains p.id) with
        | [] => none
        | q :: _ => some q.title := rfl
  refine ⟨rfl, ?_, ?_, ?_⟩
  · show ((catalog.filter fun p => ids.contains p.id).map comparisonEntry).map (fun e => e.id) = _
    rw [List.map_map]
    exact filter_map_id catalog ids
  · intro p rest hf
    rw [hrec, hf]
  · rw [hrec]
    cases hf : catalog.filter (fun p => ids.contains p.id) <;> simp

/-- Closed instance of `compare_products_correct` on a two-product
catalog with one requested id. -/
theorem compare_products_correct_witness :
    (compareProducts c10Catalog ["p2"]).recommendation = some "Beta" :=
  (compare_products_correct c10Catalog ["p2"]).2.2.1
    { id := "p2", title := "Beta", description := "x", image_url := "i2",
      product_type := "t", variants := [] } [] (by decide)

/-! ### C5: access-token expiry boundary at the bearer gate -/

/-- C5: for a stored access token with no linked Descope session, the
bearer gate admits the request at any time strictly before
`expires_at` and, at any time strictly after `expires_at`, deletes the
token and answers 401 `invalid_token` (description "Token has
expired"); the deleted token is gone from the store. -/
theorem bearer_gate_expiry
    (tokens : Store StoreEntry) (dv : String → DescopeOutcome)
    (tk method path : String) (e : StoreEntry) (now1 now2 : Nat)
    (hpub : (method == "OPTIONS" || publicPaths.any fun p => jsStartsWith path p) = false)
    (htok : storeGet tokens tk = some e)
    (hds : e.descope_token = none)
    (h1 : now1 < e.expires_at) (h2 : e.expires_at < now2) :
    authenticateBearer tokens dv now1 method path (some ("Bearer " ++ tk))
      = (.nextAuthed e.client_id, tokens) ∧
    authenticateBearer tokens dv now2 method path (some ("Bearer " ++ tk))
      = (.unauthorized "Token has expired", storeDelete tokens tk) ∧
    storeGet (storeDelete tokens tk) tk = none := by
  have hsub := jsSubstring_bearer tk
  have hstart := jsStartsWith_bearer tk
  have hn1 : ¬ (e.expires_at < now1) := by omega
  refine ⟨?_, ?_, storeGet_delete_self tokens tk⟩
  · simp [authenticateBearer, hpub, hstart, hsub, htok, hds, jsTruthy, hn1]
  · simp [authenticateBearer, hpub, hstart, hsub, htok, hds, jsTruthy, h2]

/-- Closed instance of `bearer_gate_expiry` at `T+3599s` and `T+3601s`. -/
theorem bearer_gate_expiry_witness :
    authenticateBearer [("tok1", c5Token)] (fun _ => .valid) 3599000 "GET" "/mcp/tools"
        (some ("Bearer " ++ "tok1"))
      = (.nextAuthed "client-1", [("tok1", c5Token)]) ∧
    authenticateBearer [("tok1", c5Token)] (fun _ => .valid) 3601000 "GET" "/mcp/tools"
        (some ("Bearer " ++ "tok1"))
      = (.unauthorized "Token has expired", storeDelete [("tok1", c5Token)] "tok1") ∧
    storeGet (storeDelete [("tok1", c5Token)] "tok1") "tok1" = none :=
  bearer_gate_expiry [("tok1", c5Token)] (fun _ => .valid) "tok1" "GET" "/mcp/tools"
    c5Token 3599000 3601000 (by decide) (by decide) (by decide) (by decide) (by decide)

/-! ### C6: the `client_credentials` grant -/

/-- C6: with a registered client and the exact stored secret, the
`client_credentials` grant answers 200 with a non-empty access token,
`token_type` "Bearer", `expires_in` 3600 and no refresh token; a
mismatched secret or an unknown `client_id` answers 401
`invalid_client`. -/
theorem client_credentials_behavior
    (tokens : Store StoreEntry) (clients : Store ClientEntry) (now : Nat)
    (cid : String) (cl : ClientEntry) (secret code : Option String) (n1 n2 : String)
    (hcl : storeGet clients cid = some cl) :
    (secret = some cl.client_secret →
      oauthToken tokens clients now (some "client_credentials") code (some cid) secret none n1 n2
        = (.success { access_token := "mcp_at_" ++ n1, token_type := "Bearer", expires_in := 3600
                      refresh_token := none, scope := "mcp:tools mcp:resources store:read" },
           storeSet tokens ("mcp_at_" ++ n1)
             { client_id := cid, scope := "mcp:tools mcp:resources store:read"
               token_type := some "Bearer", expires_at := now + 3600 * 1000, created_at := now })
        ∧ "mcp_at_" ++ n1 ≠ "") ∧
    (secret ≠ some cl.client_secret →
      oauthToken tokens clients now (some "client_credentials") code (some cid) secret none n1 n2
        = (.error 401 "invalid_client", tokens)) ∧
    (∀ cid2 : String, storeGet clients cid2 = none →
      oauthToken tokens clients now (some "client_credentials") code (some cid2) secret none n1 n2
        = (.error 401 "invalid_client", tokens)) := by
  refine ⟨?_, ?_, ?_⟩
  · intro hs
    subst hs
    refine ⟨?_, mcp_at_ne_empty n1⟩
    simp [oauthToken, hcl, jsStr]
  · intro hs
    have hs2 : ¬ (some cl.client_secret = secret) := fun h => hs h.symm
    simp [oauthToken, hcl, hs2]
  · intro cid2 h2
    simp [oauthToken, h2]

/-- Closed instance of `client_credentials_behavior`: correct secret,
wrong secret, and unknown client. -/
theorem client_credentials_behavior_witness :
    (oauthToken [] [("mcp_c6", c6Client)] 5 (some "client_credentials") none (some "mcp_c6")
        (some "mcp_sk_s6") none "a1" "r1"
      = (.success { access_token := "mcp_at_" ++ "a1", token_type := "Bearer", expires_in := 3600
                    refresh_token := none, scope := "mcp:tools mcp:resources store:read" },
         storeSet [] ("mcp_at_" ++ "a1")
           { client_id := "mcp_c6", scope := "mcp:tools mcp:resources store:read"
             token_type := some "Bearer", expires_at := 5 + 3600 * 1000, created_at := 5 })
      ∧ "mcp_at_" ++ "a1" ≠ "") ∧
    (oauthToken [] [("mcp_c6", c6Client)] 5 (some "client_credentials") none (some "mcp_c6")
        (some "wrong") none "a1" "r1" = (.error 401 "invalid_client", [])) ∧
    (oauthToken [] [("mcp_c6", c6Client)] 5 (some "client_credentials") none (some "ghost")
        (some "mcp_sk_s6") none "a1" "r1" = (.error 401 "invalid_client", [])) :=
  ⟨(client_credentials_behavior [] [("mcp_c6", c6Client)] 5 "mcp_c6" c6Client
      (some "mcp_sk_s6") none "a1" "r1" (by decide)).1 (by decide),
   (client_credentials_behavior [] [("mcp_c6", c6Client)] 5 "mcp_c6" c6Client
      (some "wrong") none "a1" "r1" (by decide)).2.1 (by decide),
   (client_credentials_behavior [] [("mcp_c6", c6Client)] 5 "mcp_c6" c6Client
      (some "mcp_sk_s6") none "a1" "r1" (by decide)).2.2 "ghost" (by decide)⟩

/-! ### C1: authorization codes are single-use at the token endpoint -/

/-- C1: a first `authorization_code` exchange whose verifier matches
the stored challenge succeeds, and deletes the code from the store; a
second exchange of the same code afterwards — with any verifier and
client credentials — answers 400 `invalid_grant`. -/
theorem auth_code_single_use
    (tokens : Store StoreEntry) (clients clients2 : Store ClientEntry)
    (now now2 : Nat) (c v : String) (a : StoreEntry) (n1 n2 : String)
    (hget : storeGet tokens ("auth_" ++ c) = some a)
    (hv : v ≠ "")
    (hpkce : a.code_challenge = some (base64urlNoPad (sha256 (strBytes v)))) :
    ∃ tokens2,
      oauthToken tokens clients now (some "authorization_code") (some c) none none (some v) n1 n2
        = (.success { access_token := "mcp_at_" ++ n1, token_type := "Bearer", expires_in := 3600
                      refresh_token := some ("mcp_rt_" ++ n2), scope := a.scope }, tokens2) ∧
      storeGet tokens2 ("auth_" ++ c) = none ∧
      ∀ (cid cs cv : Option String) (m1 m2 : String),
        (oauthToken tokens2 clients2 now2 (some "authorization_code") (some c) cid cs cv m1 m2).1
          = .error 400 "invalid_grant" := by
  refine ⟨storeDelete (storeSet tokens ("mcp_at_" ++ n1)
      { client_id := a.client_id, scope := a.scope, token_type := some "Bearer"
        expires_at := now + 3600 * 1000, created_at := now }) ("auth_" ++ c), ?_, ?_, ?_⟩
  · simp [oauthToken, jsStr, hget, jsTruthy, hv, hpkce]
  · exact storeGet_delete_self ..
  · intro cid cs cv m1 m2
    simp [oauthToken, jsStr, storeGet_delete_self]

/-- Closed instance of `auth_code_single_use` on a one-entry store. -/
theorem auth_code_single_use_witness :
    ∃ tokens2,
      oauthToken [("auth_" ++ "code1", c1AuthEntry)] [] 7 (some "authorization_code")
          (some "code1") none none (some "v") "a1" "r1"
        = (.success { access_token := "mcp_at_" ++ "a1", token_type := "Bearer", expires_in := 3600
                      refresh_token := some ("mcp_rt_" ++ "r1"), scope := c1AuthEntry.scope },
           tokens2) ∧
      storeGet tokens2 ("auth_" ++ "code1") = none ∧
      ∀ (cid cs cv : Option String) (m1 m2 : String),
        (oauthToken tokens2 [] 9 (some "authorization_code") (some "code1") cid cs cv m1 m2).1
          = .error 400 "invalid_grant" :=
  auth_code_single_use [("auth_" ++ "code1", c1AuthEntry)] [] [] 7 9 "code1" "v" c1AuthEntry
    "a1" "r1" (by decide) (by decide) rfl

/-! ### C9: token-endpoint errors leave the store unchanged -/

/-- C9: with an authorization code still stored, a missing (or falsy)
`code_verifier` answers 400 `invalid_request` and a mismatched verifier
answers 400 `invalid_grant`, both leaving the token store exactly as it
was; a later exchange with the matching verifier then still succeeds. -/
theorem token_errors_preserve_store
    (tokens : Store StoreEntry) (clients : Store ClientEntry) (now : Nat)
    (c : String) (a : StoreEntry)
    (hget : storeGet tokens ("auth_" ++ c) = some a) :
    (∀ (cid cs cv : Option String) (m1 m2 : String), jsTruthy cv = false →
      oauthToken tokens clients now (some "authorization_code") (some c) cid cs cv m1 m2
        = (.error 400 "invalid_request", tokens)) ∧
    (∀ (cid cs : Option String) (v : String) (m1 m2 : String), v ≠ "" →
      some (base64urlNoPad (sha256 (strBytes v))) ≠ a.code_challenge →
      oauthToken tokens clients now (some "authorization_code") (some c) cid cs (some v) m1 m2
        = (.error 400 "invalid_grant", tokens)) ∧
    (∀ (cid cs : Option String) (v : String) (m1 m2 : String), v ≠ "" →
      a.code_challenge = some (base64urlNoPad (sha256 (strBytes v))) →
      ∃ body tokens2,
        oauthToken tokens clients now (some "authorization_code") (some c) cid cs (some v) m1 m2
          = (.success body, tokens2)) := by
  refine ⟨?_, ?_, ?_⟩
  · intro cid cs cv m1 m2 hcv
    simp [oauthToken, jsStr, hget, hcv]
  · intro cid cs v m1 m2 hv hne
    simp [oauthToken, jsStr, hget, jsTruthy, hv, hne]
  · intro cid cs v m1 m2 hv hpkce
    refine ⟨{ access_token := "mcp_at_" ++ m1, token_type := "Bearer", expires_in := 3600
              refresh_token := some ("mcp_rt_" ++ m2), scope := a.scope },
            storeDelete (storeSet tokens ("mcp_at_" ++ m1)
              { client_id := a.client_id, scope := a.scope, token_type := some "Bearer"
                expires_at := now + 3600 * 1000, created_at := now }) ("auth_" ++ c), ?_⟩
    simp [oauthToken, jsStr, hget, jsTruthy, hv, hpkce]

/-- Closed instance of `token_errors_preserve_store`: missing verifier,
wrong verifier (`"w"`), then the correct verifier (`"v"`). -/
theorem token_errors_preserve_store_witness :
    (oauthToken [("auth_" ++ "code1", c1AuthEntry)] [] 7 (some "authorization_code")
        (some "code1") none none none "a1" "r1"
      = (.error 400 "invalid_request", [("auth_" ++ "code1", c1AuthEntry)])) ∧
    (oauthToken [("auth_" ++ "code1", c1AuthEntry)] [] 7 (some "authorization_code")
        (some "code1") none none (some "w") "a1" "r1"
      = (.error 400 "invalid_grant", [("auth_" ++ "code1", c1AuthEntry)])) ∧
    (∃ body tokens2,
      oauthToken [("auth_" ++ "code1", c1AuthEntry)] [] 7 (some "authorization_code")
          (some "code1") none none (some "v") "a1" "r1"
        = (.success body, tokens2)) :=
  ⟨(token_errors_preserve_store [("auth_" ++ "code1", c1AuthEntry)] [] 7 "code1" c1AuthEntry
      (by decide)).1 none none none "a1" "r1" (by decide),
   (token_errors_preserve_store [("auth_" ++ "code1", c1AuthEntry)] [] 7 "code1" c1AuthEntry
      (by decide)).2.1 none none "w" "a1" "r1" (by decide) (by decide),
   (token_errors_preserve_store [("auth_" ++ "code1", c1AuthEntry)] [] 7 "code1" c1AuthEntry
      (by decide)).2.2 none none "v" "a1" "r1" (by decide) (by decide)⟩

/-! ### C3: the callback deletes the code it is about to deliver -/

/-- C3: when the Descope callback succeeds, the handler mints its own
access token, deletes the stored authorization code, and only then
redirects to the client's `redirect_uri` carrying that same code; any
later `authorization_code` exchange of the delivered code therefore
answers 400 `invalid_grant`, so the front-channel flow can never
complete at the token endpoint. -/
theorem callback_invalidates_delivered_code
    (tokens : Store StoreEntry) (clients : Store ClientEntry)
    (now now2 : Nat) (q ru : String) (s : DescopeSession) (ac : String)
    (a : StoreEntry) (nt : String)
    (hq : q ≠ "") (hvalid : s.valid = true)
    (hac : s.mcp_auth_code = some ac) (hac2 : ac ≠ "")
    (hget : storeGet tokens ("auth_" ++ ac) = some a)
    (hru : a.redirect_uri = some ru) :
    ∃ tokens2,
      oauthCallback tokens now (some q) (some s) nt
        = (.redirect ru ac "authorized", tokens2) ∧
      storeGet tokens2 ("auth_" ++ ac) = none ∧
      ∀ (cid cs cv : Option String) (m1 m2 : String),
        (oauthToken tokens2 clients now2 (some "authorization_code") (some ac) cid cs cv m1 m2).1
          = .error 400 "invalid_grant" := by
  refine ⟨storeDelete (storeSet tokens ("mcp_at_" ++ nt)
      { client_id := a.client_id, scope := a.scope, token_type := some "Bearer"
        descope_token := some s.sessionToken, descope_user := some s.sessionToken
        expires_at := now + 3600 * 1000, created_at := now }) ("auth_" ++ ac), ?_, ?_, ?_⟩
  · simp [oauthCallback, jsTruthy, hq, hvalid, hac, hac2, hget, hru]
  · exact storeGet_delete_self ..
  · intro cid cs cv m1 m2
    simp [oauthToken, jsStr, storeGet_delete_self]

/-- Closed instance of `callback_invalidates_delivered_code`. -/
theorem callback_invalidates_delivered_code_witness :
    ∃ tokens2,
      oauthCallback [("auth_" ++ "code1", c1AuthEntry)] 7 (some "descope-code") (some c3Session) "t1"
        = (.redirect "http://localhost:4000/cb" "code1" "authorized", tokens2) ∧
      storeGet tokens2 ("auth_" ++ "code1") = none ∧
      ∀ (cid cs cv : Option String) (m1 m2 : String),
        (oauthToken tokens2 [] 9 (some "authorization_code") (some "code1") cid cs cv m1 m2).1
          = .error 400 "invalid_grant" :=
  callback_invalidates_delivered_code [("auth_" ++ "code1", c1AuthEntry)] [] 7 9
    "descope-code" "http://localhost:4000/cb" c3Session "code1" c1AuthEntry "t1"
    (by decide) rfl rfl (by decide) (by decide) rfl

/-! ### C2: expired authorization codes at the token endpoint.

The authorization endpoint stores `expires_at = created_at + 10 minutes`
with each code (part_000 line 322), but the `authorization_code` branch
of `/oauth/token` never reads that field: it only checks presence in the
map and the PKCE verifier.  An expired code that is still stored is
therefore exchanged successfully, contradicting the specified
`Expired → invalid_grant` behavior. -/

/-- C2 (failing input): at time 4000000 — well past the code's
`expires_at` of 600000 — the token endpoint still answers success with
a fresh access token instead of the specified 400 `invalid_grant`. -/
theorem expired_code_still_exchanged :
    c2AuthEntry.expires_at < 4000000 ∧
    (oauthToken [("auth_" ++ "expired1", c2AuthEntry)] [] 4000000 (some "authorization_code")
        (some "expired1") none none (some "v") "tok1" "ref1").1
      = .success { access_token := "mcp_at_" ++ "tok1", token_type := "Bearer", expires_in := 3600
                   refresh_token := some ("mcp_rt_" ++ "ref1"), scope := "mcp:tools" } :=
  ⟨by decide, by decide⟩

/-! ### C4: PKCE round-trip and sensitivity to single-byte mutations -/

set_option maxRecDepth 100000 in
set_option maxHeartbeats 4000000 in
theorem mutKillAt_0 : mutKillAt 0 = true := by decide

set_option maxRecDepth 100000 in
set_option maxHeartbeats 4000000 in
theorem mutKillAt_1 : mutKillAt 1 = true := by decide

set_option maxRecDepth 100000 in
set_option maxHeartbeats 4000000 in
theorem mutKillAt_2 : mutKillAt 2 = true := by decide

set_option maxRecDepth 100000 in
set_option maxHeartbeats 4000000 in
theorem mutKillAt_3 : mutKillAt 3 = true := by decide

set_option maxRecDepth 100000 in
set_option maxHeartbeats 4000000 in
theorem mutKillAt_4 : mutKillAt 4 = true := by decide

set_option maxRecDepth 100000 in
set_option maxHeartbeats 4000000 in
theorem mutKillAt_5 : mutKillAt 5 = true := by decide

theorem bytesEq_refl : ∀ as : List Nat, bytesEq as as = true
  | [] => rfl
  | a :: as => by simp [bytesEq, Nat.beq_refl, bytesEq_refl as]

theorem sha256_bytes_lt (msg : List Nat) : ∀ x ∈ sha256 msg, x < 256 := by
  intro x hx
  simp only [sha256, List.mem_flatMap, wordToBytes] at hx
  obtain ⟨w, _, hx⟩ := hx
  simp only [List.mem_cons, List.not_mem_nil, or_false] at hx
  rcases hx with h | h | h | h <;> subst h <;> exact Nat.mod_lt _ (by norm_num)

theorem b64Sextets_lt : ∀ (bs : List Nat), (∀ x ∈ bs, x < 256) →
    ∀ v ∈ b64Sextets bs, v < 64
  | [], _, v, hv => by simp [b64Sextets] at hv
  | [b0], h, v, hv => by
    have hb0 := h b0 (by simp)
    simp only [b64Sextets, List.mem_cons, List.not_mem_nil, or_false] at hv
    rcases hv with h1 | h1 <;> omega
  | [b0, b1], h, v, hv => by
    have hb0 := h b0 (by simp)
    have hb1 := h b1 (by simp)
    simp only [b64Sextets, List.mem_cons, List.not_mem_nil, or_false] at hv
    rcases hv with h1 | h1 | h1 <;> omega
  | b0 :: b1 :: b2 :: rest, h, v, hv => by
    have hb0 := h b0 (by simp)
    have hb1 := h b1 (by simp)
    have hb2 := h b2 (by simp)
    simp only [b64Sextets, List.mem_cons] at hv
    rcases hv with h1 | h1 | h1 | h1 | h1
    · omega
    · omega
    · omega
    · omega
    · exact b64Sextets_lt rest (fun x hx => h x (by simp [hx])) v h1

theorem b64Char_toNat : ∀ n, n < 64 → (b64Char n).toNat = b64Code n := by decide

theorem b64Code_inj : ∀ a, a < 64 → ∀ b, b < 64 → b64Code a = b64Code b → a = b := by decide

theorem b64Char_inj (a b : Nat) (ha : a < 64) (hb : b < 64)
    (h : b64Char a = b64Char b) : a = b := by
  have h2 := congrArg Char.toNat h
  rw [b64Char_toNat a ha, b64Char_toNat b hb] at h2
  exact b64Code_inj a ha b hb h2

theorem map_b64Char_inj : ∀ (xs ys : List Nat), (∀ v ∈ xs, v < 64) → (∀ v ∈ ys, v < 64) →
    xs.map b64Char = ys.map b64Char → xs = ys
  | [], [], _, _, _ => rfl
  | [], _ :: _, _, _, h => by simp at h
  | _ :: _, [], _, _, h => by simp at h
  | x :: xs, y :: ys, hx, hy, h => by
    simp only [List.map_cons, List.cons.injEq] at h
    have hxy := b64Char_inj x y (hx x (by simp)) (hy y (by simp)) h.1
    have htl := map_b64Char_inj xs ys (fun v hv => hx v (by simp [hv]))
      (fun v hv => hy v (by simp [hv])) h.2
    simp [hxy, htl]

theorem mutation_kills_b64 (i : Nat) (hi : i < 6) (b : Nat) (hb : b < 256)
    (hne : b ≠ abc123Bytes.getD i 0) :
    b64Sextets (sha256 (abc123Bytes.set i b)) ≠ b64Sextets (sha256 abc123Bytes) := by
  have hk : mutKillAt i = true := by
    interval_cases i
    · exact mutKillAt_0
    · exact mutKillAt_1
    · exact mutKillAt_2
    · exact mutKillAt_3
    · exact mutKillAt_4
    · exact mutKillAt_5
  rw [mutKillAt] at hk
  have h2 := List.all_eq_true.mp hk b (List.mem_range.mpr hb)
  cases (Bool.or_eq_true _ _).mp h2 with
  | inl h3 => exact absurd (Nat.eq_of_beq_eq_true h3) hne
  | inr h3 =>
    intro heq
    rw [heq, bytesEq_refl] at h3
    simp at h3

/-- C4: PKCE verification round-trips — for every verifier string,
verifying it against `base64url(sha256(verifier))` succeeds; it holds
for the spec's vector `"abc123"`, and replacing any single byte of
`"abc123"` by any other byte value makes verification against the
original challenge fail. -/
theorem pkce_verify_correct :
    (∀ v : String, pkceVerifyS256 v (base64urlNoPad (sha256 (strBytes v))) = true) ∧
    pkceVerifyS256 "abc123" abc123Challenge = true ∧
    (∀ i, i < 6 → ∀ b, b < 256 → b ≠ abc123Bytes.getD i 0 →
      pkceVerifyBytes (abc123Bytes.set i b) abc123Challenge = false) := by
  refine ⟨?_, ?_, ?_⟩
  · intro v
    simp [pkceVerifyS256, pkceVerifyBytes]
  · simp [pkceVerifyS256, pkceVerifyBytes, abc123Challenge, abc123Bytes]
  · intro i hi b hb hne
    have hS := mutation_kills_b64 i hi b hb hne
    unfold pkceVerifyBytes
    rw [beq_eq_false_iff_ne]
    intro heq
    apply hS
    apply map_b64Char_inj _ _
      (b64Sextets_lt _ (sha256_bytes_lt _)) (b64Sextets_lt _ (sha256_bytes_lt _))
    have hdata := congrArg String.data heq
    simpa [base64urlNoPad, abc123Challenge] using hdata

/-- Closed instance of `pkce_verify_correct`: the `"abc123"` round
trip, and the mutation replacing its first byte `'a'` (97) by `'x'`
(120). -/
theorem pkce_verify_correct_witness :
    pkceVerifyS256 "abc123" abc123Challenge = true ∧
    pkceVerifyBytes (abc123Bytes.set 0 120) abc123Challenge = false :=
  ⟨pkce_verify_correct.2.1,
   pkce_verify_correct.2.2 0 (by decide) 120 (by decide) (by decide)⟩

end DescopeStore
